import Mathlib

/-!
Verification development for the electron-gumroad-license library.

The library has two variants with a shared core:

* `src/index.ts` — the store-backed variant: the license key is kept in an
  electron-store record (encrypted by the store itself via its
  `encryptionKey` option).
* the file-backed variant — the license key is encrypted with
  aes-256-cbc (key derived from `sha256(productId + machineId)`, base64,
  first 32 chars) and written to a license file; the store keeps the IV
  (hex) in its `key` field and the file path in `filePath`.

Both variants share the remote-verifier classification
(`validateLicenseCode`), the `addLicense` activation flow with an optional
non-incrementing `maxUses` pre-check, the `checkCurrentLicense` recheck
flow with the offline-grace policy, and `clearLicense`.

Modelling conventions:

* The HTTP transport is an external collaborator, modelled as an
  `Oracle : String → Bool → Transport` mapping the license key sent and the
  `increment_uses_count` flag to either a parsed JSON response
  (`Transport.ok`) or a thrown network error (`Transport.err`).
* Every `Date.now()` sample inside one operation is modelled as the single
  instant `now` passed to that operation.
* `electron-store` dot-path reads are modelled by `storeGet` /
  `storeGetFB` over the record; the store's only top-level property is
  `license`, so any other path (in particular the unscoped
  `"lastCheckSuccess"` read in the fallback branch of
  `checkCurrentLicense`) yields `none`, exactly as `store.get` yields
  `undefined` there.
* JavaScript truthiness of the values involved (`undefined`, `""`, `0`
  are falsy) is modelled by `jsFalsyS` / `jsFalsyN`.
* node's crypto, hex codec and sha256 are external primitives, modelled
  abstractly by a `CryptoEnv`; theorems that need their contracts
  (decryption inverts encryption, hex decode inverts hex encode) take
  them as hypotheses.
* The file system of the file-backed variant is an association list from
  paths to file contents; `writeFileSync` prepends, `readFileSync` /
  `existsSync` use `List.lookup`.
* The file-backed `addLicense` additionally records its sequence of
  persistence events (`WriteEvent`), in source order, so that statements
  about what reaches disk *during* the operation can be made.
* An exception thrown past an operation (the file-backed
  `checkCurrentLicense` has no try/catch around `decipher.final()`) is
  modelled as `Except.error`.
-/

namespace GumroadLicense

/-- Snapshot of sale metadata as returned by the licensing service.
Only the two flags the code inspects are modelled. -/
structure Purchase where
  refunded : Bool
  chargebacked : Bool
deriving Repr, DecidableEq

/-- Parsed JSON body of a verification response, reconstructed from the
fields the source accesses: `success`, `message`, `purchase` (optional),
and the top-level `uses` counter. -/
structure GumroadResponse where
  success : Bool
  message : Option String
  purchase : Option Purchase
  uses : Nat
deriving Repr, DecidableEq

/-- Error taxonomy, mirroring the `ErrorType` enum of the source
(both variants define the same five members). -/
inductive ErrorType
  | ServerUnavailable
  | ActivationError
  | MaxUseExceeded
  | LicenseRefunded
  | UnknownError
deriving Repr, DecidableEq

/-- `GumroadError` of the source: a classified error with a message. -/
structure GumroadError where
  type : ErrorType
  message : String
deriving Repr, DecidableEq

/-- Outcome of the HTTP transport: a parsed response, or a thrown
network/timeout error (the `catch` branch of `validateLicenseCode`). -/
inductive Transport
  | ok (result : GumroadResponse)
  | err (error : String)
deriving Repr, DecidableEq

/-- The remote service plus transport, as seen by one manager instance:
for a license key actually sent and an `increment_uses_count` flag it
yields the transport outcome. -/
abbrev Oracle : Type := String → Bool → Transport

/-- `CheckResult` of the source (the return type of
`validateLicenseCode`). `unableToCheck` carries the raw thrown error. -/
inductive CheckResult
  | validLicense (response : GumroadResponse)
  | invalidLicense (error : GumroadError)
  | unableToCheck (error : String)
deriving Repr, DecidableEq

/-- Whether a `CheckResult` is the `ValidLicense` case. -/
def CheckResult.isValid : CheckResult → Bool
  | .validLicense _ => true
  | _ => false

/-- The error type carried by an `InvalidLicense` result, if any. -/
def CheckResult.errorTypeOf : CheckResult → Option ErrorType
  | .invalidLicense e => some e.type
  | _ => none

/-- Fallback message of the `!result.success` branch. -/
def noMessageFallback : String :=
  "License check failed without an error message."

/-- Message of the refunded/chargebacked branch. -/
def refundedMessage : String :=
  "Your purchase has been refunded, so your license is no longer valid."

/-- JS `result.message || fallback`: `undefined` and `""` are falsy. -/
def jsMessage (m : Option String) (fallback : String) : String :=
  match m with
  | none => fallback
  | some s => if s = "" then fallback else s

/-- The source's refund guard
`!result.purchase || result.purchase.refunded || result.purchase.chargebacked`. -/
def badPurchase (r : GumroadResponse) : Bool :=
  match r.purchase with
  | none => true
  | some p => p.refunded || p.chargebacked

/-- `validateLicenseCode`, classification part (identical in both
variants): a thrown transport error becomes `UnableToCheck`; then
`!result.success` becomes `InvalidLicense{ActivationError}`; then the
refund guard becomes `InvalidLicense{LicenseRefunded}`; otherwise
`ValidLicense`. -/
def validateLicenseCode (transport : Transport) : CheckResult :=
  match transport with
  | .err e => .unableToCheck e
  | .ok result =>
    if !result.success then
      .invalidLicense ⟨.ActivationError, jsMessage result.message noMessageFallback⟩
    else if badPurchase result then
      .invalidLicense ⟨.LicenseRefunded, refundedMessage⟩
    else
      .validLicense result

/-- Configuration knobs of the store-backed variant that the modelled
control flow reads (`maxUses`, `maxDaysBetweenChecks`); the purely
transport-level knobs (API URL, timeout, TLS toggle, `disableEncryption`)
are absorbed into the oracle. -/
structure GumroadLicenseOptions where
  maxUses : Option Nat
  maxDaysBetweenChecks : Option Nat
deriving Repr, DecidableEq

/-- The persisted `license` record of the store-backed variant
(the fields the modelled operations read or write; `fileName`,
`fileExtension`, `encryptionKey` and `clearInvalidConfig` are constants
the control flow never consults). `none` models a field that is unset
(JS `undefined`). -/
structure LicenseRecord where
  key : Option String
  lastCheckAttempt : Option Nat
  lastCheckSuccess : Option Nat
  purchase : Option Purchase
deriving Repr, DecidableEq

/-- The record produced by the store defaults and by `clear()`:
every modelled field unset. -/
def emptyLicenseRecord : LicenseRecord := ⟨none, none, none, none⟩

/-- A value held in the store, as read through a dot path. -/
inductive StoreValue
  | str (s : String)
  | num (n : Nat)
  | purch (p : Purchase)
deriving Repr, DecidableEq

/-- `store.get(path)` over the store-backed record. The store's only
top-level property is `license`, so any path that is not one of the
`license.*` fields — in particular the unscoped `"lastCheckSuccess"` —
reads `undefined` (`none`). -/
def storeGet (st : LicenseRecord) (path : String) : Option StoreValue :=
  match path with
  | "license.key" => st.key.map .str
  | "license.lastCheckAttempt" => st.lastCheckAttempt.map .num
  | "license.lastCheckSuccess" => st.lastCheckSuccess.map .num
  | "license.purchase" => st.purchase.map .purch
  | _ => none

/-- The `as string` view of a read store value. -/
def strVal : Option StoreValue → Option String
  | some (.str s) => some s
  | _ => none

/-- The `as number` view of a read store value. -/
def numVal : Option StoreValue → Option Nat
  | some (.num n) => some n
  | _ => none

/-- The `as Purchase` view of a read store value. -/
def purchVal : Option StoreValue → Option Purchase
  | some (.purch p) => some p
  | _ => none

/-- JS falsiness of an optional string: `undefined` and `""`. -/
def jsFalsyS : Option String → Bool
  | none => true
  | some s => s == ""

/-- JS falsiness of an optional number: `undefined` and `0`. -/
def jsFalsyN : Option Nat → Bool
  | none => true
  | some n => n == 0

/-- Result union of `addLicense`: success with the service response, or
failure with a classified `GumroadError`; the `UnableToCheck` branch
passes the raw transport error through, which is modelled separately. -/
inductive AddResult
  | ok (response : GumroadResponse)
  | fail (error : GumroadError)
  | failUnreachable (error : String)
deriving Repr, DecidableEq

/-- Whether an `AddResult` is the success case. -/
def AddResult.isSuccess : AddResult → Bool
  | .ok _ => true
  | _ => false

/-- How `addLicense` surfaces the incrementing verification's result when
it reaches that call: `ValidLicense` becomes success, the two failure
cases are passed through. -/
def addResultOf : CheckResult → AddResult
  | .validLicense r => .ok r
  | .invalidLicense e => .fail e
  | .unableToCheck e => .failUnreachable e

/-- Outcome of the store-backed `addLicense`: the returned result, the
store after the call, and the list of `increment_uses_count` flags of the
verification requests actually sent, in order. -/
structure AddOutcome where
  result : AddResult
  store : LicenseRecord
  calls : List Bool
deriving Repr, DecidableEq

/-- The part of the store-backed `addLicense` after the `maxUses`
pre-check (shared straight-line tail of the source): performs the
incrementing verification; on failure returns it with the store
untouched; on success stores the plaintext key and both timestamps. -/
def finishAddLicense (oracle : Oracle) (st : LicenseRecord) (licenseKey : String)
    (now : Nat) (calls : List Bool) : AddOutcome :=
  match validateLicenseCode (oracle licenseKey.trim true) with
  | .unableToCheck e => ⟨.failUnreachable e, st, calls ++ [true]⟩
  | .invalidLicense e => ⟨.fail e, st, calls ++ [true]⟩
  | .validLicense resp =>
      ⟨.ok resp,
       { st with key := some licenseKey,
                 lastCheckAttempt := some now,
                 lastCheckSuccess := some now },
       calls ++ [true]⟩

/-- Store-backed `addLicense`: when `maxUses` is configured, a
non-incrementing verification runs first and a `ValidLicense` result with
`uses >= maxUses` is rejected with `MaxUseExceeded` before the
incrementing call; otherwise the incrementing verification decides. -/
def addLicense (options : GumroadLicenseOptions) (oracle : Oracle)
    (st : LicenseRecord) (licenseKey : String) (now : Nat) : AddOutcome :=
  match options.maxUses with
  | none => finishAddLicense oracle st licenseKey now []
  | some maxUses =>
    match validateLicenseCode (oracle licenseKey.trim false) with
    | .validLicense resp =>
      if maxUses ≤ resp.uses then
        ⟨.fail ⟨.MaxUseExceeded,
                "You have reached the limit of " ++ toString maxUses ++ " activations."⟩,
         st, [false]⟩
      else finishAddLicense oracle st licenseKey now [false]
    | _ => finishAddLicense oracle st licenseKey now [false]

/-- Status union returned by `checkCurrentLicense`. -/
inductive RecheckStatus
  | validLicense (purchase : Purchase)
  | invalidLicense
  | outdatedLicense
  | notSet
deriving Repr, DecidableEq

/-- The purchase of a response on the `ValidLicense` path (where the
source's `GumroadSuccessResponse` type guarantees its presence). -/
def GumroadResponse.purchaseD (r : GumroadResponse) : Purchase :=
  r.purchase.getD ⟨false, false⟩

/-- Store-backed `checkCurrentLicense`: returns `NotSet` on a falsy
stored key; otherwise records the attempt timestamp and re-verifies
without incrementing. `ValidLicense` persists purchase and success
timestamp; `UnableToCheck` applies the offline-grace policy — note the
source reads the unscoped path `"lastCheckSuccess"` here; `InvalidLicense`
deletes the cached purchase. -/
def checkCurrentLicense (options : GumroadLicenseOptions) (oracle : Oracle)
    (st : LicenseRecord) (now : Nat) : RecheckStatus × LicenseRecord :=
  let key := strVal (storeGet st "license.key")
  if jsFalsyS key then (.notSet, st)
  else
    let st1 : LicenseRecord := { st with lastCheckAttempt := some now }
    match validateLicenseCode (oracle (key.getD "").trim false) with
    | .validLicense resp =>
        (.validLicense resp.purchaseD,
         { st1 with lastCheckSuccess := some now, purchase := some resp.purchaseD })
    | .unableToCheck _ =>
        let storedPurchase := purchVal (storeGet st1 "license.purchase")
        let lastSuccess := numVal (storeGet st1 "lastCheckSuccess")
        if !jsFalsyN options.maxDaysBetweenChecks &&
            (jsFalsyN lastSuccess ||
              decide (86400000 * options.maxDaysBetweenChecks.getD 0 <
                now - lastSuccess.getD 0)) then
          (.outdatedLicense, st1)
        else
          match storedPurchase with
          | some p => (.validLicense p, st1)
          | none => (.invalidLicense, st1)
    | .invalidLicense _ =>
        (.invalidLicense, { st1 with purchase := none })

/-- `clearLicense`: `store.clear()` resets the record to its defaults,
in which every modelled field is unset. -/
def clearLicense (_st : LicenseRecord) : LicenseRecord := emptyLicenseRecord

/-- The TrustRecord invariant: whenever both timestamps are set,
`lastCheckAttempt >= lastCheckSuccess`. -/
def trustInv (attempt success : Option Nat) : Bool :=
  match attempt, success with
  | some a, some s => s ≤ a
  | _, _ => true

/-- Clock-consistency of a stored success timestamp with the current
instant: if set, it was sampled no later than `now`. -/
def successLE (success : Option Nat) (now : Nat) : Bool :=
  match success with
  | none => true
  | some s => s ≤ now

/-- Configuration of the file-backed variant: the two policy knobs plus
the required license file directory. -/
structure GumroadLicenseOptionsFB where
  maxUses : Option Nat
  maxDaysBetweenChecks : Option Nat
  licenseFilePath : String
deriving Repr, DecidableEq

/-- The persisted `license` record of the file-backed variant. After a
successful activation, `key` holds the hex-encoded IV (not the license
key) and `filePath` the license file location. Defaults: `fileName`
"license", `fileExtension` "key", `filePath` `""`. -/
structure StoreFB where
  fileName : String
  fileExtension : String
  filePath : Option String
  key : Option String
  lastCheckAttempt : Option Nat
  lastCheckSuccess : Option Nat
  purchase : Option Purchase
deriving Repr, DecidableEq

/-- The file-backed record produced by the store defaults. -/
def defaultStoreFB : StoreFB :=
  ⟨"license", "key", some "", none, none, none, none⟩

/-- `store.get(path)` over the file-backed record; as in the store-backed
variant, only the `license.*` paths exist, so the unscoped
`"lastCheckSuccess"` path reads `undefined`. -/
def storeGetFB (st : StoreFB) (path : String) : Option StoreValue :=
  match path with
  | "license.fileName" => some (.str st.fileName)
  | "license.fileExtension" => some (.str st.fileExtension)
  | "license.filePath" => st.filePath.map .str
  | "license.key" => st.key.map .str
  | "license.lastCheckAttempt" => st.lastCheckAttempt.map .num
  | "license.lastCheckSuccess" => st.lastCheckSuccess.map .num
  | "license.purchase" => st.purchase.map .purch
  | _ => none

/-- The file system seen by the file-backed variant: an association list
from paths to raw file contents (most recent write first). -/
abbrev FileSystem : Type := List (String × String)

/-- `existsSync` / `readFileSync` lookup. -/
def fsRead (fs : FileSystem) (path : String) : Option String :=
  List.lookup path fs

/-- `writeFileSync`: the new content shadows any earlier one. -/
def fsWrite (fs : FileSystem) (path content : String) : FileSystem :=
  (path, content) :: fs

/-- The external crypto, hashing and hex primitives used by the
file-backed variant, modelled abstractly:
`sha256b64 s` is `createHash("sha256").update(s).digest("base64")`;
`machineId` is `machineIdSync()`; `randIv` is the `randomBytes(16)` value
drawn by the current `addLicense` call; `hexEncode` / `hexDecode` are
`Buffer.toString("hex")` / `Buffer.from(·, "hex")`; `enc secret iv m` is
the aes-256-cbc encryption `cipher.update(m) ++ cipher.final()`; and
`dec secret iv c` is the corresponding decryption, `none` when
`decipher.final()` throws (malformed ciphertext / key mismatch). -/
structure CryptoEnv where
  sha256b64 : String → String
  machineId : String
  randIv : String
  hexEncode : String → String
  hexDecode : String → String
  enc : String → String → String → String
  dec : String → String → String → Option String

/-- Key derivation of the file-backed variant (identical at encryption
and decryption sites):
`createHash("sha256").update(String(productId + machineIdSync())).digest("base64").substr(0, 32)`. -/
def deriveSecret (env : CryptoEnv) (productId : String) : String :=
  (env.sha256b64 (productId ++ env.machineId)).take 32

/-- `path.join(a, b)` as used to form the license file location. -/
def joinPath (a b : String) : String := a ++ "/" ++ b

/-- One persistence event of the file-backed `addLicense`, in source
order: an electron-store `set` (flushed to disk by the store on each
call) or a `writeFileSync`. -/
inductive WriteEvent
  | setStr (path value : String)
  | setNum (path : String) (value : Nat)
  | writeFile (path content : String)
deriving Repr, DecidableEq

/-- Outcome of the file-backed `addLicense`: returned result, store and
file system after the call, the persistence events emitted (in order),
and the `increment_uses_count` flags of the verification requests sent. -/
structure AddOutcomeFB where
  result : AddResult
  store : StoreFB
  fs : FileSystem
  writes : List WriteEvent
  calls : List Bool

/-- The tail of the file-backed `addLicense` after the `maxUses`
pre-check: performs the incrementing verification (the key is sent
untrimmed in this variant); on failure returns it with no persistence; on
success it sets both timestamps, sets `license.key` to the plaintext
license key, encrypts the key and writes the ciphertext to the license
file, then overwrites `license.key` with the hex-encoded IV and records
the file path. -/
def finishAddLicenseFB (options : GumroadLicenseOptionsFB) (env : CryptoEnv)
    (oracle : Oracle) (productId : String) (st : StoreFB) (fs : FileSystem)
    (licenseKey : String) (now : Nat) (calls : List Bool) : AddOutcomeFB :=
  match validateLicenseCode (oracle licenseKey true) with
  | .unableToCheck e => ⟨.failUnreachable e, st, fs, [], calls ++ [true]⟩
  | .invalidLicense e => ⟨.fail e, st, fs, [], calls ++ [true]⟩
  | .validLicense resp =>
    let st1 : StoreFB :=
      { st with lastCheckAttempt := some now,
                lastCheckSuccess := some now,
                key := some licenseKey }
    let licenseFile := joinPath options.licenseFilePath
      ((strVal (storeGetFB st1 "license.fileName")).getD "" ++ "." ++
        (strVal (storeGetFB st1 "license.fileExtension")).getD "")
    let secret := deriveSecret env productId
    let iv := env.randIv
    let encryptedLicense := env.enc secret iv licenseKey
    let st2 : StoreFB :=
      { st1 with key := some (env.hexEncode iv), filePath := some licenseFile }
    ⟨.ok resp, st2, fsWrite fs licenseFile encryptedLicense,
      [.setNum "license.lastCheckAttempt" now,
       .setNum "license.lastCheckSuccess" now,
       .setStr "license.key" licenseKey,
       .writeFile licenseFile encryptedLicense,
       .setStr "license.key" (env.hexEncode iv),
       .setStr "license.filePath" licenseFile],
      calls ++ [true]⟩

/-- File-backed `addLicense`: same `maxUses` pre-check as the
store-backed variant, then `finishAddLicenseFB`. -/
def addLicenseFB (options : GumroadLicenseOptionsFB) (env : CryptoEnv)
    (oracle : Oracle) (productId : String) (st : StoreFB) (fs : FileSystem)
    (licenseKey : String) (now : Nat) : AddOutcomeFB :=
  match options.maxUses with
  | none => finishAddLicenseFB options env oracle productId st fs licenseKey now []
  | some maxUses =>
    match validateLicenseCode (oracle licenseKey false) with
    | .validLicense resp =>
      if maxUses ≤ resp.uses then
        ⟨.fail ⟨.MaxUseExceeded,
                "You have reached the limit of " ++ toString maxUses ++ " activations."⟩,
         st, fs, [], [false]⟩
      else finishAddLicenseFB options env oracle productId st fs licenseKey now [false]
    | _ => finishAddLicenseFB options env oracle productId st fs licenseKey now [false]

/-- The message of the exception raised by `decipher.final()` on a
failed decryption, which the file-backed `checkCurrentLicense` does not
catch. -/
def decryptThrowMessage : String := "bad decrypt"

/-- Normal result of the file-backed `checkCurrentLicense`: the returned
status, the store after the call, and the decrypted license key that was
sent for re-verification (`none` on the `NotSet` path). -/
structure RecheckOutFB where
  status : RecheckStatus
  store : StoreFB
  usedKey : Option String
deriving Repr, DecidableEq

/-- File-backed `checkCurrentLicense`: `NotSet` when the stored file
path is falsy, the file is missing, or the stored IV string is falsy.
Otherwise it derives the secret, decrypts the license file (an
uncaught exception — `Except.error` — when the decryption primitive
fails), then records the attempt timestamp and re-verifies without
incrementing, with the same three-way outcome handling as the
store-backed variant (including the unscoped `"lastCheckSuccess"` read
in the fallback branch). -/
def checkCurrentLicenseFB (options : GumroadLicenseOptionsFB) (env : CryptoEnv)
    (oracle : Oracle) (productId : String) (st : StoreFB) (fs : FileSystem)
    (now : Nat) : Except String RecheckOutFB :=
  let ivString := strVal (storeGetFB st "license.key")
  let filePath := strVal (storeGetFB st "license.filePath")
  if jsFalsyS filePath then .ok ⟨.notSet, st, none⟩
  else if (fsRead fs (filePath.getD "")).isNone then .ok ⟨.notSet, st, none⟩
  else if jsFalsyS ivString then .ok ⟨.notSet, st, none⟩
  else
    let secret := deriveSecret env productId
    let iv := env.hexDecode (ivString.getD "")
    let encryptedLicense := (fsRead fs (filePath.getD "")).getD ""
    match env.dec secret iv encryptedLicense with
    | none => .error decryptThrowMessage
    | some licenseKey =>
      let st1 : StoreFB := { st with lastCheckAttempt := some now }
      match validateLicenseCode (oracle licenseKey false) with
      | .validLicense resp =>
          .ok ⟨.validLicense resp.purchaseD,
               { st1 with lastCheckSuccess := some now, purchase := some resp.purchaseD },
               some licenseKey⟩
      | .unableToCheck _ =>
          let storedPurchase := purchVal (storeGetFB st1 "license.purchase")
          let lastSuccess := numVal (storeGetFB st1 "lastCheckSuccess")
          if !jsFalsyN options.maxDaysBetweenChecks &&
              (jsFalsyN lastSuccess ||
                decide (86400000 * options.maxDaysBetweenChecks.getD 0 <
                  now - lastSuccess.getD 0)) then
            .ok ⟨.outdatedLicense, st1, some licenseKey⟩
          else
            match storedPurchase with
            | some p => .ok ⟨.validLicense p, st1, some licenseKey⟩
            | none => .ok ⟨.invalidLicense, st1, some licenseKey⟩
      | .invalidLicense _ =>
          .ok ⟨.invalidLicense, { st1 with purchase := none }, some licenseKey⟩

/-- The store after a file-backed `checkCurrentLicense`: the returned
record on a normal return; the input record when the decryption exception
propagates (no store write precedes the decryption in the source). -/
def recheckStoreFB (st : StoreFB) (r : Except String RecheckOutFB) : StoreFB :=
  match r with
  | .ok o => o.store
  | .error _ => st

/-- Whether a file-backed recheck returned normally (`true`) or the
decryption exception propagated (`false`). -/
def returnedNormally : Except String RecheckOutFB → Bool
  | .ok _ => true
  | .error _ => false

/-- The decrypted key a file-backed recheck sent for verification:
`none` when the call threw, `some o.usedKey` on a normal return. -/
def usedKeyOf : Except String RecheckOutFB → Option (Option String)
  | .ok o => some o.usedKey
  | .error _ => none

/-! Concrete fixtures used by witnesses and concrete evaluations. -/

/-- A transport that always throws a network error. -/
def errOracle : Oracle := fun _ _ => .err "ENETUNREACH"

/-- A plain valid response: success, live purchase, one use. -/
def okResponse : GumroadResponse := ⟨true, none, some ⟨false, false⟩, 1⟩

/-- A service that always accepts. -/
def okOracle : Oracle := fun _ _ => .ok okResponse

/-- A service reporting a valid purchase with three uses. -/
def usesOracle : Oracle := fun _ _ => .ok ⟨true, none, some ⟨false, false⟩, 3⟩

/-- A service that always rejects with `success: false`. -/
def failOracle : Oracle := fun _ _ => .ok ⟨false, some "That license does not exist", none, 0⟩

/-- A transport that is unreachable for the non-incrementing pre-check
and accepts the incrementing call. -/
def mixedOracle : Oracle := fun _ b => if b then .ok okResponse else .err "ETIMEDOUT"

/-- A populated store-backed record. -/
def sampleStore : LicenseRecord := ⟨some "OLD", some 50, some 40, some ⟨false, false⟩⟩

/-- Store-backed record for the grace-window evaluation: last success
6 days (518400000 ms) before the evaluation instant 10^12. -/
def c2Store : LicenseRecord :=
  ⟨some "LIC", some 999999000000, some 999481600000, some ⟨false, false⟩⟩

/-- A concrete crypto environment in which every primitive is the
simplest function satisfying its contract. -/
def idCrypto : CryptoEnv :=
  ⟨fun s => s ++ s, "MACHINE", "0123456789abcdef",
   fun s => s, fun s => s, fun _ _ m => m, fun _ _ c => some c⟩

/-- A crypto environment whose ciphertexts are visibly distinct from
their plaintexts. -/
def c5Crypto : CryptoEnv := { idCrypto with enc := fun _ _ m => "ENC:" ++ m }

/-- A crypto environment whose decryption always fails (malformed
ciphertext / key mismatch). -/
def badDecCrypto : CryptoEnv := { idCrypto with dec := fun _ _ _ => none }

/-- File-backed options with no policies and directory `/licenses`. -/
def fbOptions : GumroadLicenseOptionsFB := ⟨none, none, "/licenses"⟩

/-- A populated file-backed record pointing at `/lic/license.key`. -/
def fbSampleStore : StoreFB :=
  ⟨"license", "key", some "/lic/license.key", some "aabb", some 50, some 40,
   some ⟨false, false⟩⟩

/-- A file system holding an (undecryptable) license file. -/
def c9Fs : FileSystem := [("/lic/license.key", "garbage")]

/-! Theorems. -/

/-- C1, counterexample: a transport-successful response with
`success: false` and a refunded purchase is classified
`ActivationError`, not `LicenseRefunded` — the `!result.success` branch
fires before the refund guard, so the refund check does not apply
"regardless of the top-level success flag". -/
theorem c1_refunded_with_success_false_is_activation_error :
    CheckResult.errorTypeOf
        (validateLicenseCode (.ok ⟨false, some "ERR", some ⟨true, false⟩, 0⟩)) =
      some .ActivationError ∧
    CheckResult.errorTypeOf
        (validateLicenseCode (.ok ⟨false, some "ERR", some ⟨true, false⟩, 0⟩)) ≠
      some .LicenseRefunded := by
  constructor <;> decide

/-- C1, amended: for every transport-successful response whose top-level
`success` flag is true, if the embedded purchase is absent, refunded, or
chargebacked, `validateLicenseCode` returns `InvalidLicense` with error
type `LicenseRefunded` — the refund check takes precedence over returning
a `Valid` result. -/
theorem refund_check_takes_precedence_over_valid (r : GumroadResponse)
    (hs : r.success = true) (hbad : badPurchase r = true) :
    validateLicenseCode (.ok r) =
      .invalidLicense ⟨.LicenseRefunded, refundedMessage⟩ := by
  simp [validateLicenseCode, hs, hbad]

/-- C1, witness: a `success: true` response with a refunded purchase is
classified `LicenseRefunded`. -/
theorem refund_check_takes_precedence_over_valid_witness :
    (⟨true, none, some ⟨true, false⟩, 2⟩ : GumroadResponse).success = true ∧
    badPurchase ⟨true, none, some ⟨true, false⟩, 2⟩ = true ∧
    validateLicenseCode (.ok ⟨true, none, some ⟨true, false⟩, 2⟩) =
      .invalidLicense ⟨.LicenseRefunded, refundedMessage⟩ :=
  ⟨rfl, rfl, refund_check_takes_precedence_over_valid _ rfl rfl⟩

/-- C2: evaluation of the source at the spec's own grace-period example.
With `maxDaysBetweenChecks = 7`, a stored `license.lastCheckSuccess` six
days old, a cached purchase, and an unreachable verification, the recheck
returns `OutdatedLicense` instead of the cached `ValidLicense`: the
fallback branch reads the unscoped store path `"lastCheckSuccess"`,
which is always unset, so the grace window is treated as expired on
every unreachable recheck. -/
theorem grace_window_defeated_by_unscoped_read :
    checkCurrentLicense ⟨none, some 7⟩ errOracle c2Store 1000000000000 =
      (.outdatedLicense, { c2Store with lastCheckAttempt := some 1000000000000 }) := by
  rfl

/-- C3: with `maxUses` configured, when the non-incrementing pre-check
returns `ValidLicense` with a use count at or above the limit,
`addLicense` returns `MaxUseExceeded`, leaves the store untouched, and
sends no incrementing request (the request trace is `[false]`). -/
theorem max_use_precheck_blocks_incrementing_call
    (options : GumroadLicenseOptions) (oracle : Oracle) (st : LicenseRecord)
    (licenseKey : String) (now m : Nat) (resp : GumroadResponse)
    (hm : options.maxUses = some m)
    (hpre : validateLicenseCode (oracle licenseKey.trim false) = .validLicense resp)
    (huses : m ≤ resp.uses) :
    addLicense options oracle st licenseKey now =
      ⟨.fail ⟨.MaxUseExceeded,
              "You have reached the limit of " ++ toString m ++ " activations."⟩,
       st, [false]⟩ := by
  simp [addLicense, hm, hpre, huses]

/-- C3, witness: `maxUses = 3` and a pre-check reporting `uses = 3`
yield `MaxUseExceeded` with request trace `[false]`. -/
theorem max_use_precheck_blocks_incrementing_call_witness :
    addLicense ⟨some 3, none⟩ usesOracle sampleStore "K" 9 =
      ⟨.fail ⟨.MaxUseExceeded,
              "You have reached the limit of " ++ toString 3 ++ " activations."⟩,
       sampleStore, [false]⟩ :=
  max_use_precheck_blocks_incrementing_call _ _ _ _ _ 3 ⟨true, none, some ⟨false, false⟩, 3⟩
    rfl rfl (by decide)

/-- The incrementing-verification tail records exactly one further
request, with the increment flag set. -/
theorem finishAddLicense_calls (oracle : Oracle) (st : LicenseRecord)
    (licenseKey : String) (now : Nat) (calls : List Bool) :
    (finishAddLicense oracle st licenseKey now calls).calls = calls ++ [true] := by
  unfold finishAddLicense
  split <;> rfl

/-- The result and store of the incrementing-verification tail do not
depend on the request trace accumulated so far. -/
theorem finishAddLicense_congr (oracle : Oracle) (st : LicenseRecord)
    (licenseKey : String) (now : Nat) (c c' : List Bool) :
    (finishAddLicense oracle st licenseKey now c).result =
      (finishAddLicense oracle st licenseKey now c').result ∧
    (finishAddLicense oracle st licenseKey now c).store =
      (finishAddLicense oracle st licenseKey now c').store := by
  unfold finishAddLicense
  split <;> exact ⟨rfl, rfl⟩

/-- When the incrementing verification is not `ValidLicense`, the tail
returns its classification as the failure and leaves the store
untouched. -/
theorem finishAddLicense_not_valid (oracle : Oracle) (st : LicenseRecord)
    (licenseKey : String) (now : Nat) (calls : List Bool)
    (hmain : (validateLicenseCode (oracle licenseKey.trim true)).isValid = false) :
    (finishAddLicense oracle st licenseKey now calls).result =
      addResultOf (validateLicenseCode (oracle licenseKey.trim true)) ∧
    ((finishAddLicense oracle st licenseKey now calls).result).isSuccess = false ∧
    (finishAddLicense oracle st licenseKey now calls).store = st := by
  cases hv : validateLicenseCode (oracle licenseKey.trim true) with
  | validLicense resp => rw [hv] at hmain; simp [CheckResult.isValid] at hmain
  | invalidLicense e =>
      simp [finishAddLicense, hv, addResultOf, AddResult.isSuccess]
  | unableToCheck e =>
      simp [finishAddLicense, hv, addResultOf, AddResult.isSuccess]

/-- C4: whenever the incrementing verification would not report
`ValidLicense` and the `maxUses` pre-check does not trip, `addLicense`
returns failure carrying exactly the classification of the incrementing
verification (`ActivationError` or `LicenseRefunded` for a service
rejection, the raw transport error when unreachable), and the persisted
record is returned unchanged — no field is written. -/
theorem add_license_failure_leaves_store_unchanged
    (options : GumroadLicenseOptions) (oracle : Oracle) (st : LicenseRecord)
    (licenseKey : String) (now : Nat)
    (hNoTrip : ∀ m resp, options.maxUses = some m →
        validateLicenseCode (oracle licenseKey.trim false) = .validLicense resp →
        resp.uses < m)
    (hmain : (validateLicenseCode (oracle licenseKey.trim true)).isValid = false) :
    (addLicense options oracle st licenseKey now).result =
      addResultOf (validateLicenseCode (oracle licenseKey.trim true)) ∧
    ((addLicense options oracle st licenseKey now).result).isSuccess = false ∧
    (addLicense options oracle st licenseKey now).store = st := by
  have hfin : ∃ c, addLicense options oracle st licenseKey now =
      finishAddLicense oracle st licenseKey now c := by
    unfold addLicense
    cases hmx : options.maxUses with
    | none => exact ⟨[], rfl⟩
    | some m =>
      cases hp : validateLicenseCode (oracle licenseKey.trim false) with
      | validLicense resp =>
          have hlt := hNoTrip m resp hmx hp
          have hc : ¬ m ≤ resp.uses := by omega
          exact ⟨[false], by simp [hc]⟩
      | invalidLicense e => exact ⟨[false], rfl⟩
      | unableToCheck e => exact ⟨[false], rfl⟩
  obtain ⟨c, hc⟩ := hfin
  rw [hc]
  exact finishAddLicense_not_valid _ _ _ _ _ hmain

/-- C4, witness: a service answering `success: false` makes `addLicense`
fail with the classified `ActivationError` and leaves the populated
record exactly as it was. -/
theorem add_license_failure_leaves_store_unchanged_witness :
    (addLicense ⟨none, none⟩ failOracle sampleStore "K" 7).result =
      addResultOf (validateLicenseCode (failOracle "K".trim true)) ∧
    ((addLicense ⟨none, none⟩ failOracle sampleStore "K" 7).result).isSuccess = false ∧
    (addLicense ⟨none, none⟩ failOracle sampleStore "K" 7).store = sampleStore :=
  add_license_failure_leaves_store_unchanged ⟨none, none⟩ failOracle sampleStore "K" 7
    (fun _ _ h _ => nomatch h) rfl

/-- C10: with `maxUses` configured, a pre-check that is not
`ValidLicense` (service rejection or unreachable) is discarded: the
incrementing verification is still performed (request trace
`[false, true]`) and the returned result and resulting store are exactly
those of an `addLicense` run with no `maxUses` policy, i.e. they are
determined solely by the incrementing verification. -/
theorem failed_precheck_discarded_increment_still_runs
    (options : GumroadLicenseOptions) (oracle : Oracle) (st : LicenseRecord)
    (licenseKey : String) (now m : Nat)
    (hm : options.maxUses = some m)
    (hpre : (validateLicenseCode (oracle licenseKey.trim false)).isValid = false) :
    addLicense options oracle st licenseKey now =
      finishAddLicense oracle st licenseKey now [false] ∧
    (addLicense options oracle st licenseKey now).calls = [false, true] ∧
    (addLicense options oracle st licenseKey now).result =
      (addLicense ⟨none, options.maxDaysBetweenChecks⟩ oracle st licenseKey now).result ∧
    (addLicense options oracle st licenseKey now).store =
      (addLicense ⟨none, options.maxDaysBetweenChecks⟩ oracle st licenseKey now).store := by
  have hfirst : addLicense options oracle st licenseKey now =
      finishAddLicense oracle st licenseKey now [false] := by
    unfold addLicense
    rw [hm]
    cases hp : validateLicenseCode (oracle licenseKey.trim false) with
    | validLicense resp => rw [hp] at hpre; simp [CheckResult.isValid] at hpre
    | invalidLicense e => rfl
    | unableToCheck e => rfl
  refine ⟨hfirst, ?_, ?_, ?_⟩
  · rw [hfirst, finishAddLicense_calls]; rfl
  · rw [hfirst]
    show _ = (finishAddLicense oracle st licenseKey now []).result
    exact (finishAddLicense_congr oracle st licenseKey now [false] []).1
  · rw [hfirst]
    show _ = (finishAddLicense oracle st licenseKey now []).store
    exact (finishAddLicense_congr oracle st licenseKey now [false] []).2

/-- C10, witness: `maxUses = 3`, an unreachable pre-check and an
accepting incrementing call — the activation succeeds exactly like a run
without the `maxUses` policy, with request trace `[false, true]`. -/
theorem failed_precheck_discarded_increment_still_runs_witness :
    addLicense ⟨some 3, none⟩ mixedOracle sampleStore "K" 11 =
      finishAddLicense mixedOracle sampleStore "K" 11 [false] ∧
    (addLicense ⟨some 3, none⟩ mixedOracle sampleStore "K" 11).calls = [false, true] ∧
    (addLicense ⟨some 3, none⟩ mixedOracle sampleStore "K" 11).result =
      (addLicense ⟨none, none⟩ mixedOracle sampleStore "K" 11).result ∧
    (addLicense ⟨some 3, none⟩ mixedOracle sampleStore "K" 11).store =
      (addLicense ⟨none, none⟩ mixedOracle sampleStore "K" 11).store :=
  failed_precheck_discarded_increment_still_runs ⟨some 3, none⟩ mixedOracle sampleStore
    "K" 11 3 rfl rfl

/-- Refreshing the attempt timestamp to a clock-consistent `now` keeps
the trust invariant, whatever the stored success timestamp. -/
theorem trustInv_of_successLE (success : Option Nat) (now : Nat)
    (h : successLE success now = true) : trustInv (some now) success = true := by
  cases success
  · rfl
  · simpa [trustInv, successLE] using h

/-- The incrementing-verification tail preserves the trust invariant:
it either leaves the record alone or sets both timestamps to `now`. -/
theorem finishAddLicense_trustInv (oracle : Oracle) (st : LicenseRecord)
    (licenseKey : String) (now : Nat) (calls : List Bool)
    (hInv : trustInv st.lastCheckAttempt st.lastCheckSuccess = true) :
    trustInv (finishAddLicense oracle st licenseKey now calls).store.lastCheckAttempt
      (finishAddLicense oracle st licenseKey now calls).store.lastCheckSuccess = true := by
  unfold finishAddLicense
  split
  · exact hInv
  · exact hInv
  · simp [trustInv]

/-- C7: every public operation preserves the TrustRecord invariant
`lastCheckAttempt >= lastCheckSuccess` (whenever both are set), given
that the record's invariant held before and any stored success timestamp
is no later than the operation's clock: `addLicense`,
`checkCurrentLicense` and `clearLicense` of the store-backed variant,
and the file-backed `checkCurrentLicense` (through `recheckStoreFB`,
which is the input record when the decryption exception propagates). -/
theorem public_ops_preserve_trust_invariant
    (options : GumroadLicenseOptions) (optionsFB : GumroadLicenseOptionsFB)
    (env : CryptoEnv) (oracle : Oracle) (st : LicenseRecord) (stFB : StoreFB)
    (fs : FileSystem) (productId licenseKey : String) (now : Nat)
    (hInv : trustInv st.lastCheckAttempt st.lastCheckSuccess = true)
    (hInvFB : trustInv stFB.lastCheckAttempt stFB.lastCheckSuccess = true)
    (hclock : successLE st.lastCheckSuccess now = true)
    (hclockFB : successLE stFB.lastCheckSuccess now = true) :
    trustInv (addLicense options oracle st licenseKey now).store.lastCheckAttempt
      (addLicense options oracle st licenseKey now).store.lastCheckSuccess = true ∧
    trustInv (checkCurrentLicense options oracle st now).2.lastCheckAttempt
      (checkCurrentLicense options oracle st now).2.lastCheckSuccess = true ∧
    trustInv (clearLicense st).lastCheckAttempt
      (clearLicense st).lastCheckSuccess = true ∧
    trustInv (recheckStoreFB stFB
        (checkCurrentLicenseFB optionsFB env oracle productId stFB fs now)).lastCheckAttempt
      (recheckStoreFB stFB
        (checkCurrentLicenseFB optionsFB env oracle productId stFB fs now)).lastCheckSuccess =
      true := by
  refine ⟨?_, ?_, ?_, ?_⟩
  · unfold addLicense
    split
    · exact finishAddLicense_trustInv _ _ _ _ _ hInv
    · split
      · split
        · exact hInv
        · exact finishAddLicense_trustInv _ _ _ _ _ hInv
      · exact finishAddLicense_trustInv _ _ _ _ _ hInv
  · unfold checkCurrentLicense
    dsimp only
    split
    · exact hInv
    · split
      · simp [trustInv]
      · split
        · exact trustInv_of_successLE _ _ hclock
        · split
          · exact trustInv_of_successLE _ _ hclock
          · exact trustInv_of_successLE _ _ hclock
      · exact trustInv_of_successLE _ _ hclock
  · exact rfl
  · unfold checkCurrentLicenseFB
    dsimp only
    split
    · exact hInvFB
    · split
      · exact hInvFB
      · split
        · exact hInvFB
        · split
          · exact hInvFB
          · split
            · simp [recheckStoreFB, trustInv]
            · split
              · exact trustInv_of_successLE _ _ hclockFB
              · split
                · exact trustInv_of_successLE _ _ hclockFB
                · exact trustInv_of_successLE _ _ hclockFB
            · exact trustInv_of_successLE _ _ hclockFB

/-- C7, witness: the three store-backed operations and the file-backed
recheck, run on populated consistent records, all yield records
satisfying the trust invariant. -/
theorem public_ops_preserve_trust_invariant_witness :
    trustInv (addLicense ⟨none, none⟩ errOracle sampleStore "K" 100).store.lastCheckAttempt
      (addLicense ⟨none, none⟩ errOracle sampleStore "K" 100).store.lastCheckSuccess = true ∧
    trustInv (checkCurrentLicense ⟨none, none⟩ errOracle sampleStore 100).2.lastCheckAttempt
      (checkCurrentLicense ⟨none, none⟩ errOracle sampleStore 100).2.lastCheckSuccess = true ∧
    trustInv (clearLicense sampleStore).lastCheckAttempt
      (clearLicense sampleStore).lastCheckSuccess = true ∧
    trustInv (recheckStoreFB fbSampleStore
        (checkCurrentLicenseFB fbOptions idCrypto errOracle "prod" fbSampleStore c9Fs 100)).lastCheckAttempt
      (recheckStoreFB fbSampleStore
        (checkCurrentLicenseFB fbOptions idCrypto errOracle "prod" fbSampleStore c9Fs 100)).lastCheckSuccess =
      true :=
  public_ops_preserve_trust_invariant ⟨none, none⟩ fbOptions idCrypto errOracle
    sampleStore fbSampleStore c9Fs "prod" "K" 100 (by decide) (by decide) (by decide) (by decide)

/-- C8: when the stored key is present and the re-verification reports
`InvalidLicense`, `checkCurrentLicense` deletes the cached `purchase`
field from the persisted record and returns `InvalidLicense`. -/
theorem invalid_recheck_erases_cached_purchase
    (options : GumroadLicenseOptions) (oracle : Oracle) (st : LicenseRecord)
    (now : Nat) (e : GumroadError)
    (hkey : jsFalsyS (strVal (storeGet st "license.key")) = false)
    (hres : validateLicenseCode
        (oracle ((strVal (storeGet st "license.key")).getD "").trim false) =
      .invalidLicense e) :
    checkCurrentLicense options oracle st now =
      (.invalidLicense, { st with lastCheckAttempt := some now, purchase := none }) := by
  simp [checkCurrentLicense, hkey, hres]

/-- C8, witness: a populated record whose re-verification is rejected by
the service comes back as `InvalidLicense` with the cached purchase
erased (and the attempt timestamp refreshed). -/
theorem invalid_recheck_erases_cached_purchase_witness :
    checkCurrentLicense ⟨none, none⟩ failOracle sampleStore 7 =
      (.invalidLicense, { sampleStore with lastCheckAttempt := some 7, purchase := none }) :=
  invalid_recheck_erases_cached_purchase ⟨none, none⟩ failOracle sampleStore 7
    ⟨.ActivationError, "That license does not exist"⟩ (by decide) rfl

/-- C5: evaluation of the file-backed `addLicense` persistence trace at
a concrete successful activation. The third event flushed to the store
is `set("license.key", <plaintext license key>)`: the plaintext key
reaches the persisted (unencrypted) store before being overwritten two
events later by the hex-encoded IV, so the storage transiently contains
the plaintext, contradicting "never the plaintext license key". -/
theorem plaintext_key_reaches_persisted_store :
    (addLicenseFB fbOptions c5Crypto okOracle "prod" defaultStoreFB [] "PLAIN-KEY" 77).writes =
      [.setNum "license.lastCheckAttempt" 77,
       .setNum "license.lastCheckSuccess" 77,
       .setStr "license.key" "PLAIN-KEY",
       .writeFile "/licenses/license.key" "ENC:PLAIN-KEY",
       .setStr "license.key" "0123456789abcdef",
       .setStr "license.filePath" "/licenses/license.key"] ∧
    WriteEvent.setStr "license.key" "PLAIN-KEY" ∈
      (addLicenseFB fbOptions c5Crypto okOracle "prod" defaultStoreFB [] "PLAIN-KEY" 77).writes := by
  constructor
  · rfl
  · decide

/-- C9, counterexample: on a record that passes the `NotSet` guard but
whose stored blob cannot be decrypted, the file-backed
`checkCurrentLicense` returns no status value at all — the uncaught
`decipher.final()` exception propagates — so it does not fail "with a
DecryptionError": no such member exists in `ErrorType` and no classified
error value is produced. -/
theorem decryption_failure_yields_no_classified_result :
    returnedNormally
        (checkCurrentLicenseFB fbOptions badDecCrypto errOracle "prod" fbSampleStore c9Fs 5) =
      false := by
  rfl

/-- C9, amended: when the record passes the `NotSet` guard and the
decryption primitive fails on the stored IV/ciphertext (malformed
ciphertext, wrong key), the operation neither returns `NotSet` nor any
license-invalid status: the raw decryption exception propagates to the
caller, distinct from every classified `ErrorType`. -/
theorem decryption_failure_propagates_distinctly
    (options : GumroadLicenseOptionsFB) (env : CryptoEnv) (oracle : Oracle)
    (productId : String) (st : StoreFB) (fs : FileSystem) (now : Nat)
    (hfp : jsFalsyS (strVal (storeGetFB st "license.filePath")) = false)
    (hex : (fsRead fs ((strVal (storeGetFB st "license.filePath")).getD "")).isNone = false)
    (hiv : jsFalsyS (strVal (storeGetFB st "license.key")) = false)
    (hdec : env.dec (deriveSecret env productId)
        (env.hexDecode ((strVal (storeGetFB st "license.key")).getD ""))
        ((fsRead fs ((strVal (storeGetFB st "license.filePath")).getD "")).getD "") = none) :
    checkCurrentLicenseFB options env oracle productId st fs now =
      .error decryptThrowMessage := by
  simp [checkCurrentLicenseFB, hfp, hex, hiv, hdec]

/-- C9, witness: a populated record with an undecryptable license file
makes the file-backed recheck throw the decryption error. -/
theorem decryption_failure_propagates_distinctly_witness :
    checkCurrentLicenseFB fbOptions badDecCrypto okOracle "prod" fbSampleStore c9Fs 5 =
      .error decryptThrowMessage :=
  decryption_failure_propagates_distinctly fbOptions badDecCrypto okOracle "prod"
    fbSampleStore c9Fs 5 (by decide) (by decide) (by decide) rfl

/-- A joined path is never the empty string. -/
theorem joinPath_ne_empty (a b : String) : joinPath a b ≠ "" := by
  intro h
  have hlen := congrArg String.length h
  have hone : "/".length = 1 := rfl
  simp [joinPath, String.length_append, hone] at hlen

/-- Reading back the file just written returns its content. -/
theorem fsRead_fsWrite (fs : FileSystem) (f ct : String) :
    fsRead (fsWrite fs f ct) f = some ct := by
  simp [fsRead, fsWrite, List.lookup]

/-- A successful file-backed `addLicense` went through the
incrementing-verification tail. -/
theorem addLicenseFB_finish (options : GumroadLicenseOptionsFB) (env : CryptoEnv)
    (oracle : Oracle) (productId : String) (st : StoreFB) (fs : FileSystem)
    (licenseKey : String) (now : Nat) (resp : GumroadResponse)
    (hok : (addLicenseFB options env oracle productId st fs licenseKey now).result = .ok resp) :
    ∃ c, addLicenseFB options env oracle productId st fs licenseKey now =
      finishAddLicenseFB options env oracle productId st fs licenseKey now c := by
  unfold addLicenseFB at hok ⊢
  cases hmx : options.maxUses with
  | none => exact ⟨[], rfl⟩
  | some m =>
    cases hp : validateLicenseCode (oracle licenseKey false) with
    | validLicense resp' =>
      by_cases hc : m ≤ resp'.uses
      · rw [hmx] at hok
        simp [hp, hc] at hok
      · exact ⟨[false], by simp [hp, hc]⟩
    | invalidLicense e => exact ⟨[false], by simp [hp]⟩
    | unableToCheck e => exact ⟨[false], by simp [hp]⟩

/-- C6: round-trip of the persisted key. Assuming the contracts of the
external primitives — aes-256-cbc decryption inverts encryption under
the same secret and IV, and hex decoding inverts hex encoding — a
successful file-backed `addLicense` leaves a store and file system from
which `checkCurrentLicense` (deriving the secret from the same
`productId` and machine id) decrypts exactly the original license key
and sends it for re-verification. -/
theorem persisted_key_recovered_by_recheck (options : GumroadLicenseOptionsFB)
    (env : CryptoEnv) (oracle oracle2 : Oracle) (productId licenseKey : String)
    (st : StoreFB) (fs : FileSystem) (now now2 : Nat) (resp : GumroadResponse)
    (_hkey : licenseKey ≠ "")
    (hdec : env.dec (deriveSecret env productId) env.randIv
        (env.enc (deriveSecret env productId) env.randIv licenseKey) = some licenseKey)
    (hhex : env.hexDecode (env.hexEncode env.randIv) = env.randIv)
    (hivne : env.hexEncode env.randIv ≠ "")
    (hok : (addLicenseFB options env oracle productId st fs licenseKey now).result = .ok resp) :
    usedKeyOf (checkCurrentLicenseFB options env oracle2 productId
        (addLicenseFB options env oracle productId st fs licenseKey now).store
        (addLicenseFB options env oracle productId st fs licenseKey now).fs now2) =
      some (some licenseKey) := by
  obtain ⟨c, hcEq⟩ := addLicenseFB_finish options env oracle productId st fs
    licenseKey now resp hok
  rw [hcEq] at hok ⊢
  cases hv : validateLicenseCode (oracle licenseKey true) with
  | unableToCheck e => simp [finishAddLicenseFB, hv] at hok
  | invalidLicense e => simp [finishAddLicenseFB, hv] at hok
  | validLicense resp' =>
    have hfile := joinPath_ne_empty options.licenseFilePath
      (st.fileName ++ "." ++ st.fileExtension)
    have hivne' : (env.hexEncode env.randIv == "") = false :=
      beq_eq_false_iff_ne.mpr hivne
    have hfile' : (joinPath options.licenseFilePath
        (st.fileName ++ "." ++ st.fileExtension) == "") = false :=
      beq_eq_false_iff_ne.mpr hfile
    simp only [finishAddLicenseFB, hv]
    simp [checkCurrentLicenseFB, storeGetFB, strVal, jsFalsyS, hfile',
      hivne', fsRead_fsWrite, hhex, hdec]
    cases hv2 : validateLicenseCode (oracle2 licenseKey false) with
    | validLicense r => simp [hv2, usedKeyOf]
    | invalidLicense e => simp [hv2, usedKeyOf]
    | unableToCheck e =>
      simp only [hv2]
      repeat' split
      all_goals simp_all [usedKeyOf]

/-- C6, witness: with the identity-style crypto environment (whose
primitives satisfy the contracts), activating with key "KEY-1" and then
rechecking recovers exactly "KEY-1" for re-verification. -/
theorem persisted_key_recovered_by_recheck_witness :
    usedKeyOf (checkCurrentLicenseFB fbOptions idCrypto okOracle "prod"
        (addLicenseFB fbOptions idCrypto okOracle "prod" defaultStoreFB [] "KEY-1" 10).store
        (addLicenseFB fbOptions idCrypto okOracle "prod" defaultStoreFB [] "KEY-1" 10).fs 20) =
      some (some "KEY-1") :=
  persisted_key_recovered_by_recheck fbOptions idCrypto okOracle okOracle "prod" "KEY-1"
    defaultStoreFB [] 10 20 okResponse (by decide) rfl rfl (by decide) rfl

end GumroadLicense
